import Mathlib

/-!
Shallow embedding of `flang/include/flang/Common/api-attrs.h`.

The header is pure preprocessor logic: given the set of predefined compiler
and build macros (and any consumer pre-definitions of the header's own
names), it defines a fixed vocabulary of decoration macros.  We model a
preprocessing configuration as a structure of booleans / optional values,
a macro expansion as a list of abstract tokens, and each `#if` block of the
header as a Lean function from the configuration to the expansion it
produces.  The one `#error` (endianness detection, lines 192-207) makes
whole-header processing fallible, so `processHeader` returns `Except`.
-/

namespace ApiAttrs

/-- Abstract alphabet of the tokens that occur in the header's expansions.
Each constructor stands for one C token sequence element; `Tok.text` gives
the exact source text.  `user n` stands for an arbitrary token supplied by
a consumer that pre-defines one of the header's names before inclusion. -/
inductive Tok where
  | pragmaOmpBeginDeclareTargetNohost
  | pragmaOmpDeclareTarget
  | pragmaOmpEndDeclareTarget
  | kwHost
  | kwDevice
  | kwConstant
  | kwInline
  | litOne
  | pragmaNvDiagnosticPush
  | pragmaNvDiagnosticPop
  | pragmaNvDiagSuppress20011
  | pragmaNvDiagSuppress20014
  | attrNoinline
  | attrOptimizeO0
  | attrOptnone
  | user (n : Nat)
  deriving DecidableEq, Repr

/-- Exact source text of each token, for reference against the header. -/
def Tok.text : Tok → String
  | Tok.pragmaOmpBeginDeclareTargetNohost =>
      "_Pragma(\"omp begin declare target device_type(nohost)\")"
  | Tok.pragmaOmpDeclareTarget => "_Pragma(\"omp declare target\")"
  | Tok.pragmaOmpEndDeclareTarget => "_Pragma(\"omp end declare target\")"
  | Tok.kwHost => "__host__"
  | Tok.kwDevice => "__device__"
  | Tok.kwConstant => "__constant__"
  | Tok.kwInline => "inline"
  | Tok.litOne => "1"
  | Tok.pragmaNvDiagnosticPush => "_Pragma(\"nv_diagnostic push\")"
  | Tok.pragmaNvDiagnosticPop => "_Pragma(\"nv_diagnostic pop\")"
  | Tok.pragmaNvDiagSuppress20011 => "_Pragma(\"nv_diag_suppress 20011\")"
  | Tok.pragmaNvDiagSuppress20014 => "_Pragma(\"nv_diag_suppress 20014\")"
  | Tok.attrNoinline => "__attribute__((noinline))"
  | Tok.attrOptimizeO0 => "__attribute__((optimize(\"O0\")))"
  | Tok.attrOptnone => "__attribute__((optnone))"
  | Tok.user n => "user" ++ toString n

/-- A preprocessing configuration: the consumer's pre-definitions of the
header's own names (`pre...`, `none` when the name is not defined before
inclusion) and the compiler/build predefined macros the header inspects.
`BYTE_ORDER` is the value of `__BYTE_ORDER__` when that macro is defined;
`ORDER_LITTLE_ENDIAN` / `ORDER_BIG_ENDIAN` are the values of the
corresponding `__ORDER_..._ENDIAN__` macros (an undefined identifier
evaluates to 0 in preprocessor arithmetic, which is representable here by
setting the field to 0). -/
structure Config where
  preRT_EXT_API_GROUP_BEGIN : Option (List Tok)
  preRT_EXT_API_GROUP_END : Option (List Tok)
  preRT_OFFLOAD_API_GROUP_BEGIN : Option (List Tok)
  preRT_OFFLOAD_API_GROUP_END : Option (List Tok)
  preRT_OFFLOAD_VAR_GROUP_BEGIN : Option (List Tok)
  preRT_OFFLOAD_VAR_GROUP_END : Option (List Tok)
  preRT_VAR_GROUP_BEGIN : Option (List Tok)
  preRT_VAR_GROUP_END : Option (List Tok)
  preRT_API_ATTRS : Option (List Tok)
  preRT_CONST_VAR_ATTRS : Option (List Tok)
  preRT_VAR_ATTRS : Option (List Tok)
  preRT_DEVICE_COMPILATION : Option (List Tok)
  preRT_DEVICE_AVOID_RECURSION : Option (List Tok)
  preRT_DIAG_PUSH : Option (List Tok)
  preRT_DIAG_POP : Option (List Tok)
  preRT_DIAG_DISABLE_CALL_HOST_FROM_DEVICE_WARN : Option (List Tok)
  preRT_NOINLINE_ATTR : Option (List Tok)
  preRT_DEVICE_NOINLINE : Option (List Tok)
  preRT_DEVICE_NOINLINE_HOST_INLINE : Option (List Tok)
  preRT_OPTNONE_ATTR : Option (List Tok)
  preFLANG_LITTLE_ENDIAN : Option (List Tok)
  preFLANG_BIG_ENDIAN : Option (List Tok)
  OMP_NOHOST_BUILD : Bool
  OMP_OFFLOAD_BUILD : Bool
  CUDACC : Bool
  CUDA : Bool
  CUDA_ARCH : Bool
  OPENMP : Bool
  AMDGCN : Bool
  NVPTX : Bool
  MSC_VER : Bool
  WIN32 : Bool
  BYTE_ORDER : Option Nat
  ORDER_LITTLE_ENDIAN : Nat
  ORDER_BIG_ENDIAN : Nat
  hasAttributeNoinline : Bool
  hasAttributeOptimize : Bool
  hasAttributeOptnone : Bool
  deriving DecidableEq, Repr

/-- Header lines 26-35: `RT_EXT_API_GROUP_BEGIN`, guarded by `#ifndef`.
`OMP_NOHOST_BUILD` selects the nohost declare-target opening pragma,
otherwise `OMP_OFFLOAD_BUILD` selects the plain declare-target pragma,
otherwise the expansion is empty. -/
def RT_EXT_API_GROUP_BEGIN (c : Config) : List Tok :=
  match c.preRT_EXT_API_GROUP_BEGIN with
  | some ts => ts
  | none =>
    if c.OMP_NOHOST_BUILD then [Tok.pragmaOmpBeginDeclareTargetNohost]
    else if c.OMP_OFFLOAD_BUILD then [Tok.pragmaOmpDeclareTarget]
    else []

/-- Header lines 37-43: `RT_EXT_API_GROUP_END`, guarded by `#ifndef`.
Either offload flag selects the closing pragma, otherwise empty. -/
def RT_EXT_API_GROUP_END (c : Config) : List Tok :=
  match c.preRT_EXT_API_GROUP_END with
  | some ts => ts
  | none =>
    if c.OMP_NOHOST_BUILD || c.OMP_OFFLOAD_BUILD then
      [Tok.pragmaOmpEndDeclareTarget]
    else []

/-- Header line 54: `#define RT_OFFLOAD_API_GROUP_BEGIN
RT_EXT_API_GROUP_BEGIN`, with no `#ifndef` guard.  The name aliases the
current `RT_EXT_API_GROUP_BEGIN` expansion; a consumer pre-definition of
this name is overwritten. -/
def RT_OFFLOAD_API_GROUP_BEGIN (c : Config) : List Tok :=
  RT_EXT_API_GROUP_BEGIN c

/-- Header line 55: `RT_OFFLOAD_API_GROUP_END`, unguarded alias. -/
def RT_OFFLOAD_API_GROUP_END (c : Config) : List Tok :=
  RT_EXT_API_GROUP_END c

/-- Header line 63: `RT_OFFLOAD_VAR_GROUP_BEGIN`, unguarded alias. -/
def RT_OFFLOAD_VAR_GROUP_BEGIN (c : Config) : List Tok :=
  RT_EXT_API_GROUP_BEGIN c

/-- Header line 64: `RT_OFFLOAD_VAR_GROUP_END`, unguarded alias. -/
def RT_OFFLOAD_VAR_GROUP_END (c : Config) : List Tok :=
  RT_EXT_API_GROUP_END c

/-- Header lines 73-75: `RT_VAR_GROUP_BEGIN`, alias guarded by `#ifndef`. -/
def RT_VAR_GROUP_BEGIN (c : Config) : List Tok :=
  match c.preRT_VAR_GROUP_BEGIN with
  | some ts => ts
  | none => RT_EXT_API_GROUP_BEGIN c

/-- Header lines 77-79: `RT_VAR_GROUP_END`, alias guarded by `#ifndef`. -/
def RT_VAR_GROUP_END (c : Config) : List Tok :=
  match c.preRT_VAR_GROUP_END with
  | some ts => ts
  | none => RT_EXT_API_GROUP_END c

/-- Header lines 89-95: `RT_API_ATTRS`, guarded by `#ifndef`; expands to
`__host__ __device__` under `__CUDACC__` or `__CUDA__`, else empty. -/
def RT_API_ATTRS (c : Config) : List Tok :=
  match c.preRT_API_ATTRS with
  | some ts => ts
  | none =>
    if c.CUDACC || c.CUDA then [Tok.kwHost, Tok.kwDevice] else []

/-- Header lines 104-110: `RT_CONST_VAR_ATTRS`, guarded by `#ifndef`;
expands to `__constant__` when `(__CUDACC__ || __CUDA__) && __CUDA_ARCH__`,
else empty. -/
def RT_CONST_VAR_ATTRS (c : Config) : List Tok :=
  match c.preRT_CONST_VAR_ATTRS with
  | some ts => ts
  | none =>
    if (c.CUDACC || c.CUDA) && c.CUDA_ARCH then [Tok.kwConstant] else []

/-- Header lines 116-122: `RT_VAR_ATTRS`, guarded by `#ifndef`; expands to
`__device__` when `(__CUDACC__ || __CUDA__) && __CUDA_ARCH__`, else
empty. -/
def RT_VAR_ATTRS (c : Config) : List Tok :=
  match c.preRT_VAR_ATTRS with
  | some ts => ts
  | none =>
    if (c.CUDACC || c.CUDA) && c.CUDA_ARCH then [Tok.kwDevice] else []

/-- Header lines 129-134: `RT_DEVICE_COMPILATION` is defined to `1` when
`((__CUDACC__ || __CUDA__) && __CUDA_ARCH__) || (_OPENMP && (__AMDGCN__ ||
__NVPTX__))`, and `#undef`-ed otherwise.  There is no `#ifndef` guard: a
consumer pre-definition is overwritten or undefined. -/
def RT_DEVICE_COMPILATION (c : Config) : Option (List Tok) :=
  if ((c.CUDACC || c.CUDA) && c.CUDA_ARCH) ||
      (c.OPENMP && (c.AMDGCN || c.NVPTX)) then
    some [Tok.litOne]
  else none

/-- Header lines 142-146: `RT_DEVICE_AVOID_RECURSION` is defined to `1`
when `(__CUDACC__ || __CUDA__) && __CUDA_ARCH__`, and `#undef`-ed
otherwise; unguarded. -/
def RT_DEVICE_AVOID_RECURSION (c : Config) : Option (List Tok) :=
  if (c.CUDACC || c.CUDA) && c.CUDA_ARCH then some [Tok.litOne]
  else none

/-- Header lines 148-157: `RT_DIAG_PUSH`; the nv pragma under
`__CUDACC__`, else empty; unguarded. -/
def RT_DIAG_PUSH (c : Config) : List Tok :=
  if c.CUDACC then [Tok.pragmaNvDiagnosticPush] else []

/-- Header lines 148-157: `RT_DIAG_POP`; unguarded. -/
def RT_DIAG_POP (c : Config) : List Tok :=
  if c.CUDACC then [Tok.pragmaNvDiagnosticPop] else []

/-- Header lines 148-157: `RT_DIAG_DISABLE_CALL_HOST_FROM_DEVICE_WARN`;
two nv suppression pragmas under `__CUDACC__`, else empty; unguarded. -/
def RT_DIAG_DISABLE_CALL_HOST_FROM_DEVICE_WARN (c : Config) : List Tok :=
  if c.CUDACC then
    [Tok.pragmaNvDiagSuppress20011, Tok.pragmaNvDiagSuppress20014]
  else []

/-- Header lines 165-172: `RT_NOINLINE_ATTR` is the noinline attribute
when `__has_attribute(noinline)` holds (0 when the compiler lacks
`__has_attribute`), else empty; unguarded. -/
def RT_NOINLINE_ATTR (c : Config) : List Tok :=
  if c.hasAttributeNoinline then [Tok.attrNoinline] else []

/-- Header lines 173-179: `RT_DEVICE_NOINLINE` aliases `RT_NOINLINE_ATTR`
in the device phase of a CUDA dual compilation and is empty otherwise;
unguarded. -/
def RT_DEVICE_NOINLINE (c : Config) : List Tok :=
  if (c.CUDACC || c.CUDA) && c.CUDA_ARCH then RT_NOINLINE_ATTR c else []

/-- Header lines 173-179: `RT_DEVICE_NOINLINE_HOST_INLINE` is EMPTY in
the device phase of a CUDA dual compilation (line 175 defines it with no
replacement tokens) and `inline` otherwise; unguarded. -/
def RT_DEVICE_NOINLINE_HOST_INLINE (c : Config) : List Tok :=
  if (c.CUDACC || c.CUDA) && c.CUDA_ARCH then [] else [Tok.kwInline]

/-- Header lines 181-190: `RT_OPTNONE_ATTR` prefers the GCC-style
`optimize("O0")` attribute, then the Clang-style `optnone`, else empty;
unguarded. -/
def RT_OPTNONE_ATTR (c : Config) : List Tok :=
  if c.hasAttributeOptimize then [Tok.attrOptimizeO0]
  else if c.hasAttributeOptnone then [Tok.attrOptnone]
  else []

/-- The message of the header's single `#error` (line 204). -/
def endiannessError : String := "Unknown or unsupported endianness."

/-- Header lines 192-207: endianness detection.  The whole block is
guarded by `#if !defined(FLANG_LITTLE_ENDIAN) && !defined(FLANG_BIG_ENDIAN)`,
so any pre-set flag leaves both names untouched.  Otherwise: a Windows
indicator (`_MSC_VER` or `_WIN32`) forces little-endian; else
`__BYTE_ORDER__` is compared first against `__ORDER_LITTLE_ENDIAN__`, then
against `__ORDER_BIG_ENDIAN__`; else `#error`.  The result is the pair of
final values of (`FLANG_LITTLE_ENDIAN`, `FLANG_BIG_ENDIAN`). -/
def detectEndianness (c : Config) :
    Except String (Option (List Tok) × Option (List Tok)) :=
  if c.preFLANG_LITTLE_ENDIAN.isSome || c.preFLANG_BIG_ENDIAN.isSome then
    Except.ok (c.preFLANG_LITTLE_ENDIAN, c.preFLANG_BIG_ENDIAN)
  else if c.MSC_VER || c.WIN32 then
    Except.ok (some [Tok.litOne], none)
  else
    match c.BYTE_ORDER with
    | some v =>
      if v = c.ORDER_LITTLE_ENDIAN then Except.ok (some [Tok.litOne], none)
      else if v = c.ORDER_BIG_ENDIAN then Except.ok (none, some [Tok.litOne])
      else Except.error endiannessError
    | none => Except.error endiannessError

/-- The macro environment after a successful inclusion of the header:
the final expansion of every name the header is responsible for.  Names
defined either way are `List Tok`; names that may end up undefined
(`#undef`, or never defined) are `Option (List Tok)`. -/
structure HeaderEnv where
  RT_EXT_API_GROUP_BEGIN : List Tok
  RT_EXT_API_GROUP_END : List Tok
  RT_OFFLOAD_API_GROUP_BEGIN : List Tok
  RT_OFFLOAD_API_GROUP_END : List Tok
  RT_OFFLOAD_VAR_GROUP_BEGIN : List Tok
  RT_OFFLOAD_VAR_GROUP_END : List Tok
  RT_VAR_GROUP_BEGIN : List Tok
  RT_VAR_GROUP_END : List Tok
  RT_API_ATTRS : List Tok
  RT_CONST_VAR_ATTRS : List Tok
  RT_VAR_ATTRS : List Tok
  RT_DEVICE_COMPILATION : Option (List Tok)
  RT_DEVICE_AVOID_RECURSION : Option (List Tok)
  RT_DIAG_PUSH : List Tok
  RT_DIAG_POP : List Tok
  RT_DIAG_DISABLE_CALL_HOST_FROM_DEVICE_WARN : List Tok
  RT_NOINLINE_ATTR : List Tok
  RT_DEVICE_NOINLINE : List Tok
  RT_DEVICE_NOINLINE_HOST_INLINE : List Tok
  RT_OPTNONE_ATTR : List Tok
  FLANG_LITTLE_ENDIAN : Option (List Tok)
  FLANG_BIG_ENDIAN : Option (List Tok)
  deriving DecidableEq, Repr, Inhabited

/-- Processing the whole header on a configuration: every block succeeds
except possibly the endianness fallback, whose `#error` aborts the
translation. -/
def processHeader (c : Config) : Except String HeaderEnv :=
  match detectEndianness c with
  | Except.error e => Except.error e
  | Except.ok (little, big) =>
    Except.ok
      { RT_EXT_API_GROUP_BEGIN := RT_EXT_API_GROUP_BEGIN c
        RT_EXT_API_GROUP_END := RT_EXT_API_GROUP_END c
        RT_OFFLOAD_API_GROUP_BEGIN := RT_OFFLOAD_API_GROUP_BEGIN c
        RT_OFFLOAD_API_GROUP_END := RT_OFFLOAD_API_GROUP_END c
        RT_OFFLOAD_VAR_GROUP_BEGIN := RT_OFFLOAD_VAR_GROUP_BEGIN c
        RT_OFFLOAD_VAR_GROUP_END := RT_OFFLOAD_VAR_GROUP_END c
        RT_VAR_GROUP_BEGIN := RT_VAR_GROUP_BEGIN c
        RT_VAR_GROUP_END := RT_VAR_GROUP_END c
        RT_API_ATTRS := RT_API_ATTRS c
        RT_CONST_VAR_ATTRS := RT_CONST_VAR_ATTRS c
        RT_VAR_ATTRS := RT_VAR_ATTRS c
        RT_DEVICE_COMPILATION := RT_DEVICE_COMPILATION c
        RT_DEVICE_AVOID_RECURSION := RT_DEVICE_AVOID_RECURSION c
        RT_DIAG_PUSH := RT_DIAG_PUSH c
        RT_DIAG_POP := RT_DIAG_POP c
        RT_DIAG_DISABLE_CALL_HOST_FROM_DEVICE_WARN :=
          RT_DIAG_DISABLE_CALL_HOST_FROM_DEVICE_WARN c
        RT_NOINLINE_ATTR := RT_NOINLINE_ATTR c
        RT_DEVICE_NOINLINE := RT_DEVICE_NOINLINE c
        RT_DEVICE_NOINLINE_HOST_INLINE := RT_DEVICE_NOINLINE_HOST_INLINE c
        RT_OPTNONE_ATTR := RT_OPTNONE_ATTR c
        FLANG_LITTLE_ENDIAN := little
        FLANG_BIG_ENDIAN := big }

/-- The macro environment on success, `none` when the `#error` fired. -/
def envAfter (c : Config) : Option HeaderEnv :=
  match processHeader c with
  | Except.ok e => some e
  | Except.error _ => none

/-- A plain host build: nothing pre-defined, no offload or CUDA macros,
GCC-style byte-order macros reporting little-endian, `noinline` and
`optnone` attributes available. -/
def hostConfig : Config where
  preRT_EXT_API_GROUP_BEGIN := none
  preRT_EXT_API_GROUP_END := none
  preRT_OFFLOAD_API_GROUP_BEGIN := none
  preRT_OFFLOAD_API_GROUP_END := none
  preRT_OFFLOAD_VAR_GROUP_BEGIN := none
  preRT_OFFLOAD_VAR_GROUP_END := none
  preRT_VAR_GROUP_BEGIN := none
  preRT_VAR_GROUP_END := none
  preRT_API_ATTRS := none
  preRT_CONST_VAR_ATTRS := none
  preRT_VAR_ATTRS := none
  preRT_DEVICE_COMPILATION := none
  preRT_DEVICE_AVOID_RECURSION := none
  preRT_DIAG_PUSH := none
  preRT_DIAG_POP := none
  preRT_DIAG_DISABLE_CALL_HOST_FROM_DEVICE_WARN := none
  preRT_NOINLINE_ATTR := none
  preRT_DEVICE_NOINLINE := none
  preRT_DEVICE_NOINLINE_HOST_INLINE := none
  preRT_OPTNONE_ATTR := none
  preFLANG_LITTLE_ENDIAN := none
  preFLANG_BIG_ENDIAN := none
  OMP_NOHOST_BUILD := false
  OMP_OFFLOAD_BUILD := false
  CUDACC := false
  CUDA := false
  CUDA_ARCH := false
  OPENMP := false
  AMDGCN := false
  NVPTX := false
  MSC_VER := false
  WIN32 := false
  BYTE_ORDER := some 1234
  ORDER_LITTLE_ENDIAN := 1234
  ORDER_BIG_ENDIAN := 4321
  hasAttributeNoinline := true
  hasAttributeOptimize := false
  hasAttributeOptnone := true

/-- A device-only OpenMP offload build (`OMP_NOHOST_BUILD`). -/
def nohostConfig : Config := { hostConfig with OMP_NOHOST_BUILD := true }

/-- An OpenMP offload build (`OMP_OFFLOAD_BUILD`, no nohost). -/
def offloadConfig : Config := { hostConfig with OMP_OFFLOAD_BUILD := true }

/-- The device phase of a CUDA dual compilation
(`__CUDACC__` and `__CUDA_ARCH__` defined). -/
def cudaDeviceConfig : Config :=
  { hostConfig with CUDACC := true, CUDA_ARCH := true }

/-- A consumer pre-defines BOTH endianness flags before inclusion. -/
def bothEndianPreConfig : Config :=
  { hostConfig with preFLANG_LITTLE_ENDIAN := some [Tok.litOne],
                    preFLANG_BIG_ENDIAN := some [Tok.litOne] }

/-- A consumer pre-defines `RT_DEVICE_COMPILATION` before including the
header in a plain host build. -/
def preDeviceCompConfig : Config :=
  { hostConfig with preRT_DEVICE_COMPILATION := some [Tok.litOne] }

/-- A consumer pre-defines every `#ifndef`-guarded name of the header. -/
def preAllConfig : Config :=
  { hostConfig with
      preRT_EXT_API_GROUP_BEGIN := some [Tok.user 1],
      preRT_EXT_API_GROUP_END := some [Tok.user 2],
      preRT_VAR_GROUP_BEGIN := some [Tok.user 3],
      preRT_VAR_GROUP_END := some [Tok.user 4],
      preRT_API_ATTRS := some [Tok.user 5],
      preRT_CONST_VAR_ATTRS := some [Tok.user 6],
      preRT_VAR_ATTRS := some [Tok.user 7],
      preFLANG_LITTLE_ENDIAN := some [Tok.litOne] }

/-- The concrete environment produced by processing the header on
`preAllConfig` (processing succeeds there). -/
def preAllEnv : HeaderEnv :=
  match processHeader preAllConfig with
  | Except.ok e => e
  | Except.error _ => default

/-- Successful processing forces the endianness detection outcome to be
the pair of endianness fields of the produced environment. -/
theorem processHeader_ok_endian (c : Config) (e : HeaderEnv)
    (h : processHeader c = Except.ok e) :
    detectEndianness c =
      Except.ok (e.FLANG_LITTLE_ENDIAN, e.FLANG_BIG_ENDIAN) := by
  unfold processHeader at h
  cases hd : detectEndianness c with
  | error msg => rw [hd] at h; cases h
  | ok p =>
    obtain ⟨l, b⟩ := p
    rw [hd] at h
    injection h with h2
    subst h2
    rfl

/-- Successful processing fixes every guarded expansion field of the
produced environment to the corresponding expansion function. -/
theorem processHeader_ok_fields (c : Config) (e : HeaderEnv)
    (h : processHeader c = Except.ok e) :
    e.RT_EXT_API_GROUP_BEGIN = RT_EXT_API_GROUP_BEGIN c ∧
    e.RT_EXT_API_GROUP_END = RT_EXT_API_GROUP_END c ∧
    e.RT_VAR_GROUP_BEGIN = RT_VAR_GROUP_BEGIN c ∧
    e.RT_VAR_GROUP_END = RT_VAR_GROUP_END c ∧
    e.RT_API_ATTRS = RT_API_ATTRS c ∧
    e.RT_CONST_VAR_ATTRS = RT_CONST_VAR_ATTRS c ∧
    e.RT_VAR_ATTRS = RT_VAR_ATTRS c := by
  unfold processHeader at h
  cases hd : detectEndianness c with
  | error msg => rw [hd] at h; cases h
  | ok p =>
    obtain ⟨l, b⟩ := p
    rw [hd] at h
    injection h with h2
    subst h2
    exact ⟨rfl, rfl, rfl, rfl, rfl, rfl, rfl⟩

/-- Processing fails exactly when the endianness detection fails. -/
theorem processHeader_error_iff (c : Config) (msg : String) :
    processHeader c = Except.error msg ↔
      detectEndianness c = Except.error msg := by
  unfold processHeader
  cases hd : detectEndianness c with
  | error e => simp
  | ok p =>
    obtain ⟨l, b⟩ := p
    simp

/-- The endianness detection errors out exactly on configurations with no
pre-set flag, no Windows indicator, and no byte-order value matching
either recognized order value. -/
theorem detectEndianness_error_iff (c : Config) :
    detectEndianness c = Except.error endiannessError ↔
      (c.preFLANG_LITTLE_ENDIAN = none ∧ c.preFLANG_BIG_ENDIAN = none ∧
        c.MSC_VER = false ∧ c.WIN32 = false ∧
        (∀ v, c.BYTE_ORDER = some v →
          v ≠ c.ORDER_LITTLE_ENDIAN ∧ v ≠ c.ORDER_BIG_ENDIAN)) := by
  rcases hl : c.preFLANG_LITTLE_ENDIAN with _ | vl <;>
  rcases hbg : c.preFLANG_BIG_ENDIAN with _ | vb <;>
  cases hm : c.MSC_VER <;> cases hw : c.WIN32 <;>
  rcases hbo : c.BYTE_ORDER with _ | v <;>
    simp [detectEndianness, hl, hbg, hm, hw, hbo]
  all_goals
    by_cases h1 : v = c.ORDER_LITTLE_ENDIAN <;>
    by_cases h2 : v = c.ORDER_BIG_ENDIAN <;>
      simp [h1, h2]
  all_goals split <;> simp

/-- When at most one endianness flag is pre-set, a successful detection
yields exactly one defined flag. -/
theorem detectEndianness_ok_shape (c : Config)
    (h : c.preFLANG_LITTLE_ENDIAN = none ∨ c.preFLANG_BIG_ENDIAN = none)
    (l b : Option (List Tok))
    (hok : detectEndianness c = Except.ok (l, b)) :
    (l.isSome = true ∧ b.isSome = false) ∨
    (l.isSome = false ∧ b.isSome = true) := by
  unfold detectEndianness at hok
  rcases hl : c.preFLANG_LITTLE_ENDIAN with _ | vl <;>
  rcases hbg : c.preFLANG_BIG_ENDIAN with _ | vb <;>
    rw [hl, hbg] at hok <;> simp at hok
  · by_cases hwm : c.MSC_VER = true ∨ c.WIN32 = true
    · simp [hwm] at hok
      obtain ⟨hok1, hok2⟩ := hok
      subst hok1; subst hok2
      left; exact ⟨rfl, rfl⟩
    · simp [hwm] at hok
      rcases hbo : c.BYTE_ORDER with _ | v <;> rw [hbo] at hok
      · simp at hok
      · dsimp only at hok
        by_cases h1 : v = c.ORDER_LITTLE_ENDIAN
        · rw [if_pos h1] at hok
          simp at hok
          obtain ⟨hok1, hok2⟩ := hok
          subst hok1; subst hok2
          left; exact ⟨rfl, rfl⟩
        · by_cases h2 : v = c.ORDER_BIG_ENDIAN
          · rw [if_neg h1, if_pos h2] at hok
            simp at hok
            obtain ⟨hok1, hok2⟩ := hok
            subst hok1; subst hok2
            right; exact ⟨rfl, rfl⟩
          · rw [if_neg h1, if_neg h2] at hok
            simp at hok
  · obtain ⟨hok1, hok2⟩ := hok
    subst hok1; subst hok2
    right; exact ⟨rfl, rfl⟩
  · obtain ⟨hok1, hok2⟩ := hok
    subst hok1; subst hok2
    left; exact ⟨rfl, rfl⟩
  · rcases h with h | h
    · rw [hl] at h; cases h
    · rw [hbg] at h; cases h

/-- C1: with the exported-function group delimiters not pre-defined, when
`OMP_NOHOST_BUILD` is defined BEGIN expands to the pragma opening a
device-only declare-target region with nohost device-type and END to the
pragma closing a declare-target region; when `OMP_OFFLOAD_BUILD` is
defined and `OMP_NOHOST_BUILD` is not, BEGIN opens a declare-target region
and END closes it; when neither is defined both expand to the empty token
sequence. -/
theorem c1_ext_api_group_delimiters (c : Config)
    (hb : c.preRT_EXT_API_GROUP_BEGIN = none)
    (he : c.preRT_EXT_API_GROUP_END = none) :
    (c.OMP_NOHOST_BUILD = true →
      RT_EXT_API_GROUP_BEGIN c = [Tok.pragmaOmpBeginDeclareTargetNohost] ∧
      RT_EXT_API_GROUP_END c = [Tok.pragmaOmpEndDeclareTarget]) ∧
    (c.OMP_NOHOST_BUILD = false → c.OMP_OFFLOAD_BUILD = true →
      RT_EXT_API_GROUP_BEGIN c = [Tok.pragmaOmpDeclareTarget] ∧
      RT_EXT_API_GROUP_END c = [Tok.pragmaOmpEndDeclareTarget]) ∧
    (c.OMP_NOHOST_BUILD = false → c.OMP_OFFLOAD_BUILD = false →
      RT_EXT_API_GROUP_BEGIN c = [] ∧ RT_EXT_API_GROUP_END c = []) := by
  constructor
  · intro h1
    simp [RT_EXT_API_GROUP_BEGIN, RT_EXT_API_GROUP_END, hb, he, h1]
  constructor
  · intro h1 h2
    simp [RT_EXT_API_GROUP_BEGIN, RT_EXT_API_GROUP_END, hb, he, h1, h2]
  · intro h1 h2
    simp [RT_EXT_API_GROUP_BEGIN, RT_EXT_API_GROUP_END, hb, he, h1, h2]

/-- C1 witness: the nohost configuration evaluated concretely. -/
theorem c1_witness :
    RT_EXT_API_GROUP_BEGIN nohostConfig =
      [Tok.pragmaOmpBeginDeclareTargetNohost] ∧
    RT_EXT_API_GROUP_END nohostConfig = [Tok.pragmaOmpEndDeclareTarget] :=
  (c1_ext_api_group_delimiters nohostConfig rfl rfl).1 rfl

/-- With no pre-set flag and no Windows indicator, the endianness
detection reduces to the byte-order comparison chain. -/
theorem detectEndianness_none_pre (c : Config)
    (hl : c.preFLANG_LITTLE_ENDIAN = none)
    (hb : c.preFLANG_BIG_ENDIAN = none)
    (hm : c.MSC_VER = false) (hw : c.WIN32 = false) :
    detectEndianness c =
      match c.BYTE_ORDER with
      | some v =>
        if v = c.ORDER_LITTLE_ENDIAN then Except.ok (some [Tok.litOne], none)
        else if v = c.ORDER_BIG_ENDIAN then
          Except.ok (none, some [Tok.litOne])
        else Except.error endiannessError
      | none => Except.error endiannessError := by
  unfold detectEndianness
  rw [hl, hb, hm, hw]
  rfl

/-- C2: with neither endianness flag pre-defined, the header decides in
order: a Windows indicator forces the little-endian flag; otherwise a
defined `__BYTE_ORDER__` equal to the little-endian order value gives the
little-endian flag, equal to the big-endian order value gives the
big-endian flag; otherwise translation fails with the diagnostic naming
the unknown-endianness condition. -/
theorem c2_endianness_decision_order (c : Config)
    (hl : c.preFLANG_LITTLE_ENDIAN = none)
    (hb : c.preFLANG_BIG_ENDIAN = none) :
    ((c.MSC_VER = true ∨ c.WIN32 = true) →
      detectEndianness c = Except.ok (some [Tok.litOne], none)) ∧
    (c.MSC_VER = false → c.WIN32 = false →
      (∀ v, c.BYTE_ORDER = some v →
        (v = c.ORDER_LITTLE_ENDIAN →
          detectEndianness c = Except.ok (some [Tok.litOne], none)) ∧
        (v ≠ c.ORDER_LITTLE_ENDIAN → v = c.ORDER_BIG_ENDIAN →
          detectEndianness c = Except.ok (none, some [Tok.litOne])) ∧
        (v ≠ c.ORDER_LITTLE_ENDIAN → v ≠ c.ORDER_BIG_ENDIAN →
          detectEndianness c = Except.error endiannessError)) ∧
      (c.BYTE_ORDER = none →
        detectEndianness c = Except.error endiannessError)) := by
  constructor
  · intro hw
    unfold detectEndianness
    rcases hw with h | h <;> simp [hl, hb, h]
  · intro hm hw
    constructor
    · intro v hv
      have hd := detectEndianness_none_pre c hl hb hm hw
      rw [hv] at hd
      dsimp only at hd
      refine ⟨fun heq => ?_, fun hne heq => ?_, fun hne1 hne2 => ?_⟩
      · rw [hd, if_pos heq]
      · rw [hd, if_neg hne, if_pos heq]
      · rw [hd, if_neg hne1, if_neg hne2]
    · intro hnone
      have hd := detectEndianness_none_pre c hl hb hm hw
      rw [hnone] at hd
      exact hd

/-- C2 witness: the host configuration, where the byte-order macro equals
the little-endian order value. -/
theorem c2_witness :
    detectEndianness hostConfig = Except.ok (some [Tok.litOne], none) :=
  (((c2_endianness_decision_order hostConfig rfl rfl).2 rfl rfl).1
    1234 rfl).1 rfl

/-- C3 counterexample: when the consumer pre-defines BOTH endianness
flags, the header's guard skips the whole detection block, processing
succeeds, and both flags remain defined afterwards - contradicting the
claim that exactly one flag is defined whenever processing succeeds. -/
theorem c3_counterexample :
    (envAfter bothEndianPreConfig).map
        (fun e => (e.FLANG_LITTLE_ENDIAN.isSome, e.FLANG_BIG_ENDIAN.isSome)) =
      some (true, true) := by
  rfl

/-- C3 amended: provided the consumer pre-set at most one of the two
endianness flags, exactly one of them is defined whenever processing
succeeds; and processing fails with the documented diagnostic exactly when
neither flag was pre-set, no Windows indicator is present, and no defined
byte-order value matches either recognized order value. -/
theorem c3_endianness_totality (c : Config)
    (h : c.preFLANG_LITTLE_ENDIAN = none ∨ c.preFLANG_BIG_ENDIAN = none) :
    (∀ e, processHeader c = Except.ok e →
      (e.FLANG_LITTLE_ENDIAN.isSome = true ∧
        e.FLANG_BIG_ENDIAN.isSome = false) ∨
      (e.FLANG_LITTLE_ENDIAN.isSome = false ∧
        e.FLANG_BIG_ENDIAN.isSome = true)) ∧
    (processHeader c = Except.error endiannessError ↔
      (c.preFLANG_LITTLE_ENDIAN = none ∧ c.preFLANG_BIG_ENDIAN = none ∧
        c.MSC_VER = false ∧ c.WIN32 = false ∧
        (∀ v, c.BYTE_ORDER = some v →
          v ≠ c.ORDER_LITTLE_ENDIAN ∧ v ≠ c.ORDER_BIG_ENDIAN))) := by
  constructor
  · intro e he
    exact detectEndianness_ok_shape c h _ _ (processHeader_ok_endian c e he)
  · rw [processHeader_error_iff]
    exact detectEndianness_error_iff c

/-- C3 witness: the amended statement evaluated on the host
configuration. -/
theorem c3_witness :
    (∀ e, processHeader hostConfig = Except.ok e →
      (e.FLANG_LITTLE_ENDIAN.isSome = true ∧
        e.FLANG_BIG_ENDIAN.isSome = false) ∨
      (e.FLANG_LITTLE_ENDIAN.isSome = false ∧
        e.FLANG_BIG_ENDIAN.isSome = true)) ∧
    (processHeader hostConfig = Except.error endiannessError ↔
      (hostConfig.preFLANG_LITTLE_ENDIAN = none ∧
        hostConfig.preFLANG_BIG_ENDIAN = none ∧
        hostConfig.MSC_VER = false ∧ hostConfig.WIN32 = false ∧
        (∀ v, hostConfig.BYTE_ORDER = some v →
          v ≠ hostConfig.ORDER_LITTLE_ENDIAN ∧
          v ≠ hostConfig.ORDER_BIG_ENDIAN))) :=
  c3_endianness_totality hostConfig (Or.inl rfl)

/-- C4 counterexample: `RT_DEVICE_COMPILATION` has no `#ifndef` guard
(lines 129-134 end in an unconditional `#undef` on the non-device path),
so a consumer pre-definition of it is NOT left untouched: in a plain host
build the header undefines it. -/
theorem c4_counterexample :
    preDeviceCompConfig.preRT_DEVICE_COMPILATION = some [Tok.litOne] ∧
    (envAfter preDeviceCompConfig).map (fun e => e.RT_DEVICE_COMPILATION) =
      some none := by
  exact ⟨rfl, rfl⟩

/-- C4 amended: the header leaves a prior definition untouched exactly
for its `#ifndef`-guarded names: the exported-function group delimiters,
the general module-variable group delimiters, the three per-declaration
attribute macros, and the endianness flags.  The remaining interface names
(the cross-module and offload-visible variable group delimiters, the
device-compilation and recursion-avoidance indicators, the
diagnostic-bracket macros, the no-inline macros, and the
optimization-disable macro) are redefined or undefined unconditionally. -/
theorem c4_overridable_guarded (c : Config) (e : HeaderEnv)
    (h : processHeader c = Except.ok e) :
    (∀ ts, c.preRT_EXT_API_GROUP_BEGIN = some ts →
      e.RT_EXT_API_GROUP_BEGIN = ts) ∧
    (∀ ts, c.preRT_EXT_API_GROUP_END = some ts →
      e.RT_EXT_API_GROUP_END = ts) ∧
    (∀ ts, c.preRT_VAR_GROUP_BEGIN = some ts → e.RT_VAR_GROUP_BEGIN = ts) ∧
    (∀ ts, c.preRT_VAR_GROUP_END = some ts → e.RT_VAR_GROUP_END = ts) ∧
    (∀ ts, c.preRT_API_ATTRS = some ts → e.RT_API_ATTRS = ts) ∧
    (∀ ts, c.preRT_CONST_VAR_ATTRS = some ts → e.RT_CONST_VAR_ATTRS = ts) ∧
    (∀ ts, c.preRT_VAR_ATTRS = some ts → e.RT_VAR_ATTRS = ts) ∧
    ((c.preFLANG_LITTLE_ENDIAN.isSome = true ∨
        c.preFLANG_BIG_ENDIAN.isSome = true) →
      e.FLANG_LITTLE_ENDIAN = c.preFLANG_LITTLE_ENDIAN ∧
      e.FLANG_BIG_ENDIAN = c.preFLANG_BIG_ENDIAN) := by
  obtain ⟨f1, f2, f3, f4, f5, f6, f7⟩ := processHeader_ok_fields c e h
  have hend := processHeader_ok_endian c e h
  refine ⟨?_, ?_, ?_, ?_, ?_, ?_, ?_, ?_⟩
  · intro ts hts; rw [f1]; unfold RT_EXT_API_GROUP_BEGIN; rw [hts]
  · intro ts hts; rw [f2]; unfold RT_EXT_API_GROUP_END; rw [hts]
  · intro ts hts; rw [f3]; unfold RT_VAR_GROUP_BEGIN; rw [hts]
  · intro ts hts; rw [f4]; unfold RT_VAR_GROUP_END; rw [hts]
  · intro ts hts; rw [f5]; unfold RT_API_ATTRS; rw [hts]
  · intro ts hts; rw [f6]; unfold RT_CONST_VAR_ATTRS; rw [hts]
  · intro ts hts; rw [f7]; unfold RT_VAR_ATTRS; rw [hts]
  · intro hpre
    have hdet : detectEndianness c =
        Except.ok (c.preFLANG_LITTLE_ENDIAN, c.preFLANG_BIG_ENDIAN) := by
      unfold detectEndianness
      rcases hpre with h1 | h1 <;> simp [h1]
    have hp := Except.ok.inj (hdet.symm.trans hend)
    exact ⟨(congrArg Prod.fst hp).symm, (congrArg Prod.snd hp).symm⟩

/-- C4 witness: a consumer pre-definition of `RT_EXT_API_GROUP_BEGIN`
survives processing on a configuration pre-defining all guarded names. -/
theorem c4_witness : preAllEnv.RT_EXT_API_GROUP_BEGIN = [Tok.user 1] :=
  (c4_overridable_guarded preAllConfig preAllEnv rfl).1 [Tok.user 1] rfl

/-- C5 counterexample: in the device phase of a CUDA dual compilation the
hybrid macro expands to the EMPTY sequence (header line 175), not to the
no-inline attribute, even though the compiler supports the noinline
attribute there. -/
theorem c5_counterexample :
    RT_DEVICE_NOINLINE_HOST_INLINE cudaDeviceConfig = [] ∧
    RT_NOINLINE_ATTR cudaDeviceConfig = [Tok.attrNoinline] ∧
    ([] : List Tok) ≠ [Tok.attrNoinline] := by
  refine ⟨rfl, rfl, ?_⟩
  decide

/-- C5 amended: the hybrid macro expands to the EMPTY token sequence when
the current pass is the device phase of a host+device dual compilation,
and expands to the inline keyword otherwise. -/
theorem c5_device_noinline_host_inline (c : Config) :
    ((c.CUDACC = true ∨ c.CUDA = true) → c.CUDA_ARCH = true →
      RT_DEVICE_NOINLINE_HOST_INLINE c = []) ∧
    (((c.CUDACC || c.CUDA) && c.CUDA_ARCH) = false →
      RT_DEVICE_NOINLINE_HOST_INLINE c = [Tok.kwInline]) := by
  constructor
  · intro h1 h2
    unfold RT_DEVICE_NOINLINE_HOST_INLINE
    rcases h1 with h | h <;> simp [h, h2]
  · intro h
    unfold RT_DEVICE_NOINLINE_HOST_INLINE
    simp [h]

/-- C5 witness: the device phase of a CUDA dual compilation evaluated
concretely. -/
theorem c5_witness : RT_DEVICE_NOINLINE_HOST_INLINE cudaDeviceConfig = [] :=
  (c5_device_noinline_host_inline cudaDeviceConfig).1 (Or.inl rfl) rfl

/-- C6: `RT_DEVICE_COMPILATION` is defined to 1 exactly when a CUDA dual
compilation is in its device phase (a CUDA compiler macro together with
the device-architecture macro) or an OpenMP pass targets a recognized
accelerator back-end (`_OPENMP` with an AMDGCN or NVPTX macro); in every
other configuration it is undefined after processing. -/
theorem c6_device_compilation (c : Config) :
    (RT_DEVICE_COMPILATION c = some [Tok.litOne] ↔
      (((c.CUDACC = true ∨ c.CUDA = true) ∧ c.CUDA_ARCH = true) ∨
        (c.OPENMP = true ∧ (c.AMDGCN = true ∨ c.NVPTX = true)))) ∧
    (RT_DEVICE_COMPILATION c = none ↔
      ¬ (((c.CUDACC = true ∨ c.CUDA = true) ∧ c.CUDA_ARCH = true) ∨
        (c.OPENMP = true ∧ (c.AMDGCN = true ∨ c.NVPTX = true)))) := by
  cases h1 : c.CUDACC <;> cases h2 : c.CUDA <;> cases h3 : c.CUDA_ARCH <;>
  cases h4 : c.OPENMP <;> cases h5 : c.AMDGCN <;> cases h6 : c.NVPTX <;>
    simp [RT_DEVICE_COMPILATION, h1, h2, h3, h4, h5, h6]

/-- C7: with `RT_API_ATTRS` not pre-defined, it expands to the two tokens
`__host__ __device__` whenever a CUDA compiler macro is defined (in every
pass of the dual compilation), and to the empty token sequence
otherwise. -/
theorem c7_api_attrs (c : Config) (h : c.preRT_API_ATTRS = none) :
    ((c.CUDACC = true ∨ c.CUDA = true) →
      RT_API_ATTRS c = [Tok.kwHost, Tok.kwDevice]) ∧
    (c.CUDACC = false → c.CUDA = false → RT_API_ATTRS c = []) := by
  constructor
  · intro hc
    unfold RT_API_ATTRS
    rcases hc with h1 | h1 <;> simp [h, h1]
  · intro h1 h2
    unfold RT_API_ATTRS
    simp [h, h1, h2]

/-- C7 witness: a CUDA compilation pass evaluated concretely. -/
theorem c7_witness :
    RT_API_ATTRS cudaDeviceConfig = [Tok.kwHost, Tok.kwDevice] :=
  (c7_api_attrs cudaDeviceConfig rfl).1 (Or.inl rfl)

/-- C8: with the variable attribute macros not pre-defined,
`RT_CONST_VAR_ATTRS` expands to `__constant__` and `RT_VAR_ATTRS` to
`__device__` exactly when a CUDA compiler macro and the
device-architecture macro are both defined; in every other configuration
both expand to the empty token sequence. -/
theorem c8_var_attrs (c : Config)
    (h1 : c.preRT_CONST_VAR_ATTRS = none)
    (h2 : c.preRT_VAR_ATTRS = none) :
    (RT_CONST_VAR_ATTRS c = [Tok.kwConstant] ↔
      (c.CUDACC = true ∨ c.CUDA = true) ∧ c.CUDA_ARCH = true) ∧
    (RT_VAR_ATTRS c = [Tok.kwDevice] ↔
      (c.CUDACC = true ∨ c.CUDA = true) ∧ c.CUDA_ARCH = true) ∧
    (¬ ((c.CUDACC = true ∨ c.CUDA = true) ∧ c.CUDA_ARCH = true) →
      RT_CONST_VAR_ATTRS c = [] ∧ RT_VAR_ATTRS c = []) := by
  cases hc1 : c.CUDACC <;> cases hc2 : c.CUDA <;> cases hc3 : c.CUDA_ARCH <;>
    simp [RT_CONST_VAR_ATTRS, RT_VAR_ATTRS, h1, h2, hc1, hc2, hc3]

/-- C8 witness: the device phase of a CUDA dual compilation evaluated
concretely. -/
theorem c8_witness : RT_CONST_VAR_ATTRS cudaDeviceConfig = [Tok.kwConstant] :=
  ((c8_var_attrs cudaDeviceConfig rfl rfl).1).mpr ⟨Or.inl rfl, rfl⟩

/-- C9: with the guarded variable group delimiters not pre-defined, the
cross-module function group delimiters, the offload-visible variable group
delimiters, and the general module-variable group delimiters expand to
exactly the same token sequences as the exported-function group
delimiters, in every configuration. -/
theorem c9_group_alias (c : Config)
    (h1 : c.preRT_VAR_GROUP_BEGIN = none)
    (h2 : c.preRT_VAR_GROUP_END = none) :
    RT_OFFLOAD_API_GROUP_BEGIN c = RT_EXT_API_GROUP_BEGIN c ∧
    RT_OFFLOAD_API_GROUP_END c = RT_EXT_API_GROUP_END c ∧
    RT_OFFLOAD_VAR_GROUP_BEGIN c = RT_EXT_API_GROUP_BEGIN c ∧
    RT_OFFLOAD_VAR_GROUP_END c = RT_EXT_API_GROUP_END c ∧
    RT_VAR_GROUP_BEGIN c = RT_EXT_API_GROUP_BEGIN c ∧
    RT_VAR_GROUP_END c = RT_EXT_API_GROUP_END c := by
  refine ⟨rfl, rfl, rfl, rfl, ?_, ?_⟩
  · unfold RT_VAR_GROUP_BEGIN; rw [h1]
  · unfold RT_VAR_GROUP_END; rw [h2]

/-- C9 witness: the offload build evaluated concretely. -/
theorem c9_witness :
    RT_OFFLOAD_VAR_GROUP_BEGIN offloadConfig =
      RT_EXT_API_GROUP_BEGIN offloadConfig :=
  (c9_group_alias offloadConfig rfl rfl).2.2.1

/-- C10: whenever `RT_DEVICE_AVOID_RECURSION` is defined after the header
is processed, `RT_DEVICE_COMPILATION` is also defined: the CUDA
device-phase condition implies the device-compilation condition. -/
theorem c10_avoid_recursion_implies_device_compilation (c : Config)
    (h : (RT_DEVICE_AVOID_RECURSION c).isSome = true) :
    (RT_DEVICE_COMPILATION c).isSome = true := by
  unfold RT_DEVICE_AVOID_RECURSION at h
  unfold RT_DEVICE_COMPILATION
  cases hb : (c.CUDACC || c.CUDA) && c.CUDA_ARCH with
  | false => rw [hb] at h; simp at h
  | true => simp [hb]

/-- C10 witness: the device phase of a CUDA dual compilation evaluated
concretely. -/
theorem c10_witness : (RT_DEVICE_COMPILATION cudaDeviceConfig).isSome = true :=
  c10_avoid_recursion_implies_device_compilation cudaDeviceConfig rfl

end ApiAttrs
